import Mathlib

/-!
Shallow embedding of the nori-draw drawing-surface widget
(src/src/index.ts, with the draw-callback hook of src/build/index.js).

The class `Artist` (exported as `Draw` in the build) holds a wrapper
element, a canvas, a 2D context and a record of scalar state fields.
We embed the whole observable state - the instance fields plus the
DOM/context properties the methods write - as one Lean structure, and
each method as a state-transformer function translated line by line
from the source.  JavaScript dynamic values reaching a setter are
modelled by the inductive `JSVal` so that the typeof checks in the
source can be mirrored exactly.  Numbers are modelled as rationals.
Layout-engine outputs (wrapper clientWidth / clientHeight, read by
setBorderSize) are inputs of the model, carried in the state.
-/

namespace NoriDraw

/-- A JavaScript dynamic value as it can reach one of the setters,
discriminated the way the source discriminates: typeof number,
typeof string, typeof boolean, the undefined value, anything else. -/
inductive JSVal where
  | num (q : ℚ)
  | str (s : String)
  | boolean (b : Bool)
  | undef
  | objOther
  deriving DecidableEq

/-- Mirrors the check typeof v === "number" of the source. -/
def JSVal.isNumber : JSVal → Bool
  | .num _ => true
  | _ => false

/-- Mirrors the check typeof v === "string" of the source. -/
def JSVal.isString : JSVal → Bool
  | .str _ => true
  | _ => false

/-- One hex digit, case-insensitive: the character class of the
source regular expression regexHEX. -/
def isHexDigitChar (c : Char) : Bool :=
  (('0' ≤ c && c ≤ '9') || ('a' ≤ c && c ≤ 'f') || ('A' ≤ c && c ≤ 'F'))

/-- The test of the source regular expression regexHEX: a hash sign
followed by one to six case-insensitive hex digits and nothing else. -/
def regexHEXtest (s : String) : Bool :=
  match s.data with
  | [] => false
  | c :: rest =>
    c = '#' && 1 ≤ rest.length && rest.length ≤ 6 && rest.all isHexDigitChar

/-- An operation issued against the 2D drawing context.  The stroke and
fill constructors record the context style attributes in force at the
moment the raster operation is issued, because that is what the
platform rasteriser consumes. -/
inductive CtxOp where
  | beginPath
  | moveTo (x y : ℚ)
  | lineTo (x y : ℚ)
  | stroke (strokeStyle : String) (lineWidth : ℚ)
  | arc (x y radius startAngle endAngle : ℚ)
  | fill (fillStyle : String)
  | clearRect (x y w h : ℚ)
  deriving DecidableEq

/-- Whether a context operation is a stroke invocation. -/
def isStrokeOp : CtxOp → Bool
  | .stroke _ _ => true
  | _ => false

/-- The border record of the Artist instance. -/
structure Border where
  size : ℚ
  color : String
  style : String
  deriving DecidableEq

/-- The mouse record of the Artist instance. -/
structure Mouse where
  x : ℚ
  y : ℚ
  mousedown : Bool
  cursor : String
  deriving DecidableEq

/-- The 2D context: its persistent style attributes (platform defaults
black stroke and fill, line width 1) and the log of operations issued
so far. -/
structure CtxState where
  strokeStyle : String := "#000000"
  lineWidth : ℚ := 1
  fillStyle : String := "#000000"
  ops : List CtxOp := []
  deriving DecidableEq

/-- Everything an Artist instance can observe or mutate: its own
fields, the style properties it writes on the wrapper element and the
canvas element, the layout-engine readbacks, the context, and the
draw-callback bookkeeping of the build file. -/
structure DrawState where
  hasWrapper : Bool
  hasCanvas : Bool
  hasCtx : Bool
  width : ℚ
  height : ℚ
  sizeValue : String
  bg : String
  lineWidth : ℚ
  lineColor : String
  border : Border
  mouse : Mouse
  canvasWidth : ℚ
  canvasHeight : ℚ
  canvasStyleBg : String
  canvasStyleCursor : String
  wrapperStyleWidth : String
  wrapperStyleHeight : String
  wrapperStyleBorderWidth : String
  wrapperStyleBorderColor : String
  wrapperStyleBorderStyle : String
  wrapperBoxSizing : String
  wrapperDisplay : String
  wrapperAlignItems : String
  wrapperJustifyContent : String
  wrapperClientWidth : ℚ
  wrapperClientHeight : ℚ
  ctx : CtxState
  hasDrawCallback : Bool
  drawCallbackCount : ℕ
  deriving DecidableEq

/-- The default guard callback of every setter in the source. -/
def trueGuard {α : Type} : α → Bool := fun _ => true

/-- Append one operation to the context log. -/
def pushOp (s : DrawState) (op : CtxOp) : DrawState :=
  { s with ctx := { s.ctx with ops := s.ctx.ops ++ [op] } }

/-- ctx.stroke, recording the style attributes in force. -/
def ctxStroke (s : DrawState) : DrawState :=
  pushOp s (.stroke s.ctx.strokeStyle s.ctx.lineWidth)

/-- ctx.fill, recording the fill style in force. -/
def ctxFill (s : DrawState) : DrawState :=
  pushOp s (.fill s.ctx.fillStyle)

/-- JavaScript number-to-string coercion as used when the source
concatenates a number with a unit or px suffix.  Exact for the integer
values every claim evaluates. -/
def jsNumStr (q : ℚ) : String :=
  if q.den = 1 then toString q.num else toString q

/-- setLineWidth of the source: guard, typeof number check, clamp. -/
def setLineWidth (s : DrawState) (value : JSVal) (cb : ℚ → Bool) : DrawState :=
  if !cb s.lineWidth then s else
  match value with
  | .num v => { s with lineWidth := if v ≤ 0 then 1 else if v > 10 then 10 else v }
  | _ => s

/-- setLineColor of the source: guard, typeof string check, regexHEX
check, assignment, then ctx.beginPath when a context exists. -/
def setLineColor (s : DrawState) (value : JSVal) (cb : String → Bool) : DrawState :=
  if !cb s.lineColor then s else
  match value with
  | .str v =>
    if !regexHEXtest v then s else
    let s1 := { s with lineColor := v }
    if s1.hasCtx then pushOp s1 .beginPath else s1
  | _ => s

/-- setBg of the source: guard, typeof string check, regexHEX check,
then assignment of the canvas backgroundColor style when a canvas
exists.  Note the source never writes the bg instance field here. -/
def setBg (s : DrawState) (value : JSVal) (cb : String → Bool) : DrawState :=
  if !cb s.bg then s else
  match value with
  | .str v =>
    if !regexHEXtest v then s
    else if s.hasCanvas then { s with canvasStyleBg := v } else s
  | _ => s

/-- setBorderSize of the source: guard, typeof number check,
conditional size assignment, none-to-solid style flip, wrapper style
write, then canvas resize from the layout readbacks. -/
def setBorderSize (s : DrawState) (value : JSVal) (cb : ℚ → Bool) : DrawState :=
  if !cb s.border.size then s else
  match value with
  | .num v =>
    let s1 := if v ≠ s.border.size then { s with border := { s.border with size := v } } else s
    let s2 := if s1.border.style = "none"
              then { s1 with border := { s1.border with style := "solid" } } else s1
    if s2.hasWrapper then
      let s3 := { s2 with wrapperStyleBorderWidth := jsNumStr s2.border.size ++ "px" }
      if !s3.hasCanvas then s3
      else { s3 with canvasWidth := s3.wrapperClientWidth,
                     canvasHeight := s3.wrapperClientHeight }
    else s2
  | _ => s

/-- setBorderColor of the source: guard, typeof string check, regexHEX
check, conditional color assignment, none-to-solid style flip, wrapper
style write. -/
def setBorderColor (s : DrawState) (value : JSVal) (cb : String → Bool) : DrawState :=
  if !cb s.border.color then s else
  match value with
  | .str v =>
    if !regexHEXtest v then s else
    let s1 := if v ≠ s.border.color then { s with border := { s.border with color := v } } else s
    let s2 := if s1.border.style = "none"
              then { s1 with border := { s1.border with style := "solid" } } else s1
    if s2.hasWrapper then { s2 with wrapperStyleBorderColor := s2.border.color } else s2
  | _ => s

/-- setBorderStyle of the source: guard, typeof string check,
conditional assignment, wrapper style write. -/
def setBorderStyle (s : DrawState) (value : JSVal) (cb : String → Bool) : DrawState :=
  if !cb s.border.style then s else
  match value with
  | .str v =>
    let s1 := if v ≠ s.border.style then { s with border := { s.border with style := v } } else s
    if s1.hasWrapper then { s1 with wrapperStyleBorderStyle := s1.border.style } else s1
  | _ => s

/-- setMouseDown of the source: guard, toggle on undefined, assignment
on a boolean, otherwise nothing. -/
def setMouseDown (s : DrawState) (value : JSVal) (cb : Bool → Bool) : DrawState :=
  if !cb s.mouse.mousedown then s else
  match value with
  | .undef => { s with mouse := { s.mouse with mousedown := !s.mouse.mousedown } }
  | .boolean b => { s with mouse := { s.mouse with mousedown := b } }
  | _ => s

/-- setMouseCursor of the source: guard, membership check against the
three allowed names with fallback to crosshair, then assignment of
both the mouse record field and the canvas cursor style when a canvas
exists. -/
def setMouseCursor (s : DrawState) (value : String) (cb : String → Bool) : DrawState :=
  if !cb s.mouse.cursor then s else
  let setCursorToCanvas := fun (t : DrawState) (c : String) =>
    if !t.hasCanvas then t
    else { t with mouse := { t.mouse with cursor := c }, canvasStyleCursor := c }
  if !(["default", "crosshair", "pointer"].contains value)
  then setCursorToCanvas s "crosshair"
  else setCursorToCanvas s value

/-- setWidth of the source: guard, canvas drawing-surface width set to
the value minus twice the border size when a canvas exists, wrapper
outer width set to the value plus the size unit. -/
def setWidth (s : DrawState) (value : ℚ) (cb : ℚ → Bool) : DrawState :=
  if !cb s.width then s else
  let s1 := if s.hasCanvas then { s with canvasWidth := value - s.border.size * 2 } else s
  { s1 with wrapperStyleWidth := jsNumStr value ++ s1.sizeValue }

/-- setHeight of the source, the height analogue of setWidth. -/
def setHeight (s : DrawState) (value : ℚ) (cb : ℚ → Bool) : DrawState :=
  if !cb s.height then s else
  let s1 := if s.hasCanvas then { s with canvasHeight := value - s.border.size * 2 } else s
  { s1 with wrapperStyleHeight := jsNumStr value ++ s1.sizeValue }

/-- setCords of the source (the private coordinate setter): guard,
then assignment of the mouse position from the event coordinates
extracted by getCords. -/
def setCords (s : DrawState) (x y : ℚ) (cb : (ℚ × ℚ) → Bool) : DrawState :=
  if !cb (s.mouse.x, s.mouse.y) then s else
  { s with mouse := { s.mouse with x := x, y := y } }

/-- drawLine of the source (the private segment renderer), following
src/build/index.js, which equals the TypeScript body plus the final
draw-callback hook: bail out without context or with the mouse up;
lineTo the mouse position; stroke; copy the stored line color and
width into the context style attributes; for width above one, fill a
disc of half the width at the mouse position; begin a fresh path at
the mouse position; finally invoke the registered draw callback when
one is installed. -/
def drawLine (s : DrawState) : DrawState :=
  if !s.hasCtx || !s.mouse.mousedown then s else
  let s1 := ctxStroke (pushOp s (.lineTo s.mouse.x s.mouse.y))
  let s2 := { s1 with ctx := { s1.ctx with strokeStyle := s1.lineColor,
                                           lineWidth := s1.lineWidth } }
  let s3 :=
    if s2.lineWidth > 1 then
      let radius := s2.lineWidth / 2
      let t1 := pushOp s2 .beginPath
      let t2 := { t1 with ctx := { t1.ctx with fillStyle := t1.lineColor } }
      ctxFill (pushOp t2 (.arc t2.mouse.x t2.mouse.y radius 0 100))
    else s2
  let s4 := pushOp (pushOp s3 .beginPath) (.moveTo s3.mouse.x s3.mouse.y)
  if s4.hasDrawCallback then { s4 with drawCallbackCount := s4.drawCallbackCount + 1 } else s4

/-- The mousedown listener installed by addListeners. -/
def onMouseDown (s : DrawState) (x y : ℚ) : DrawState :=
  setMouseDown (setCords s x y trueGuard) (.boolean true) trueGuard

/-- The mouseup listener installed by addListeners. -/
def onMouseUp (s : DrawState) (x y : ℚ) : DrawState :=
  let t := setMouseDown (setCords s x y trueGuard) (.boolean false) trueGuard
  if t.hasCtx then pushOp t .beginPath else t

/-- The mousemove listener installed by addListeners. -/
def onMouseMove (s : DrawState) (x y : ℚ) : DrawState :=
  drawLine (setCords s x y trueGuard)

/-- The mouseleave listener installed by addListeners. -/
def onMouseLeave (s : DrawState) (x y : ℚ) : DrawState :=
  let t := setMouseDown (setCords s x y trueGuard) (.boolean false) trueGuard
  if t.hasCtx then pushOp t .beginPath else t

/-- clearAll of the source: with a context, clear the rectangle from
the origin to the stored width and height. -/
def clearAll (s : DrawState) : DrawState :=
  if !s.hasCtx then s else pushOp s (.clearRect 0 0 s.width s.height)

/-- addCallbackToDraw of the build file: installs the draw callback. -/
def addCallbackToDraw (s : DrawState) : DrawState :=
  { s with hasDrawCallback := true }

/-- getBorder of the source: the keyed accessor over the border
record, undefined on unknown keys. -/
def getBorder (s : DrawState) (value : String) : Option (ℚ ⊕ String) :=
  if value = "size" then some (Sum.inl s.border.size)
  else if value = "color" then some (Sum.inr s.border.color)
  else if value = "style" then some (Sum.inr s.border.style)
  else none

/-- getImageB64 of the source: undefined without canvas or context or
for a non-string format; fall back to png outside the png and jpeg
names; call toDataURL (a platform primitive, passed as a function
argument) with the mime string and the fixed quality one half; return
the result unless it is empty. -/
def getImageB64 (s : DrawState) (format : JSVal)
    (toDataURL : String → ℚ → String) : Option String :=
  if !s.hasCanvas || !s.hasCtx || !format.isString then none else
  match format with
  | .str f =>
    let imageFormat := if ["png", "jpeg"].contains f then f else "png"
    let imageString := toDataURL ("image/" ++ imageFormat) (1 / 2)
    if imageString.length ≠ 0 then some imageString else none
  | _ => none

/-- The options object of the constructor; every field optional. -/
structure Options where
  width : Option ℚ := none
  height : Option ℚ := none
  sizeValue : Option String := none
  bg : Option String := none
  lineColor : Option String := none
  lineWidth : Option ℚ := none
  cursor : Option String := none
  borderWidth : Option ℚ := none
  borderColor : Option String := none
  borderStyle : Option String := none

/-- JavaScript or-default on an optional number: zero is falsy. -/
def orNum (v : Option ℚ) (d : ℚ) : ℚ :=
  match v with
  | some x => if x = 0 then d else x
  | none => d

/-- JavaScript or-default on an optional string: empty is falsy. -/
def orStr (v : Option String) (d : String) : String :=
  match v with
  | some x => if x = "" then d else x
  | none => d

/-- The instance fields as the constructor body assigns them, before
start runs.  hasWrapper says whether the wrapper argument is present;
clientW and clientH are the layout-engine readbacks the model treats
as environment inputs.  DOM pieces not yet created carry the platform
defaults (a fresh canvas is 300 by 150 with empty styles). -/
def initialState (options : Options) (hasWrapper : Bool) (clientW clientH : ℚ) : DrawState :=
  { hasWrapper := hasWrapper
    hasCanvas := false
    hasCtx := false
    width := orNum options.width 500
    height := orNum options.height 500
    sizeValue := orStr options.sizeValue "px"
    bg := orStr options.bg "#cccccc"
    lineWidth := orNum options.lineWidth 1
    lineColor := orStr options.lineColor "#000000"
    border := { size := orNum options.borderWidth 0
                color := orStr options.borderColor "none"
                style := orStr options.borderStyle "none" }
    mouse := { x := 0, y := 0, mousedown := false, cursor := orStr options.cursor "crosshair" }
    canvasWidth := 300
    canvasHeight := 150
    canvasStyleBg := ""
    canvasStyleCursor := ""
    wrapperStyleWidth := ""
    wrapperStyleHeight := ""
    wrapperStyleBorderWidth := ""
    wrapperStyleBorderColor := ""
    wrapperStyleBorderStyle := ""
    wrapperBoxSizing := ""
    wrapperDisplay := ""
    wrapperAlignItems := ""
    wrapperJustifyContent := ""
    wrapperClientWidth := clientW
    wrapperClientHeight := clientH
    ctx := {}
    hasDrawCallback := false
    drawCallbackCount := 0 }

/-- createCanvas of the source: warn and stop without a wrapper;
otherwise set the wrapper layout styles and mount a fresh canvas. -/
def createCanvas (s : DrawState) : DrawState :=
  if !s.hasWrapper then s else
  { s with wrapperBoxSizing := "border-box"
           wrapperDisplay := "flex"
           wrapperAlignItems := "center"
           wrapperJustifyContent := "center"
           hasCanvas := true }

/-- createContext of the source: warn and stop without a canvas; warn
and stop when the platform yields no context (ctxOk false); otherwise
record the context. -/
def createContext (s : DrawState) (ctxOk : Bool) : DrawState :=
  if !s.hasCanvas then s
  else if !ctxOk then s
  else { s with hasCtx := true }

/-- start of the source: create the canvas, push every stored field
through its setter with the default guard, attach the listeners
(stateless in the model), then acquire the context. -/
def start (s0 : DrawState) (ctxOk : Bool) : DrawState :=
  let s1 := createCanvas s0
  let s2 := setWidth s1 s1.width trueGuard
  let s3 := setHeight s2 s2.height trueGuard
  let s4 := setBg s3 (.str s3.bg) trueGuard
  let s5 := setBorderColor s4 (.str s4.border.color) trueGuard
  let s6 := setBorderSize s5 (.num s5.border.size) trueGuard
  let s7 := setBorderStyle s6 (.str s6.border.style) trueGuard
  let s8 := setMouseCursor s7 s7.mouse.cursor trueGuard
  let s9 := setLineColor s8 (.str s8.lineColor) trueGuard
  let s10 := setLineWidth s9 (.num s9.lineWidth) trueGuard
  createContext s10 ctxOk

/-- The constructor: assign the fields, then run start. -/
def mkArtist (options : Options) (hasWrapper ctxOk : Bool) (clientW clientH : ℚ) : DrawState :=
  start (initialState options hasWrapper clientW clientH) ctxOk

/-- The surface obtained from an empty options object, a present
wrapper, a working context, and zero layout readbacks. -/
def defaultState : DrawState :=
  mkArtist {} true true 0 0

/-- Number of stroke invocations in a context log. -/
def strokeCount : List CtxOp → ℕ
  | [] => 0
  | op :: rest => (if isStrokeOp op then 1 else 0) + strokeCount rest

/-- The stroke style each stroke invocation of a log consumed, in
order. -/
def strokeStylesOf : List CtxOp → List String
  | [] => []
  | .stroke c _ :: rest => c :: strokeStylesOf rest
  | _ :: rest => strokeStylesOf rest

/-- The instance state right after the constructor field assignments,
before start runs: the border style is still none here. -/
def unstartedState : DrawState :=
  initialState {} true 0 0

/-- The state reached from the default surface by setBorderSize 5 then
setBorderColor with a valid hex color, written out field by field. -/
def borderFiveState : DrawState :=
  { hasWrapper := true, hasCanvas := true, hasCtx := true,
    width := 500, height := 500, sizeValue := "px", bg := "#cccccc",
    lineWidth := 1, lineColor := "#000000",
    border := { size := 5, color := "#fff", style := "solid" },
    mouse := { x := 0, y := 0, mousedown := false, cursor := "crosshair" },
    canvasWidth := 0, canvasHeight := 0,
    canvasStyleBg := "#cccccc", canvasStyleCursor := "crosshair",
    wrapperStyleWidth := "500px", wrapperStyleHeight := "500px",
    wrapperStyleBorderWidth := "5px", wrapperStyleBorderColor := "#fff",
    wrapperStyleBorderStyle := "solid",
    wrapperBoxSizing := "border-box", wrapperDisplay := "flex",
    wrapperAlignItems := "center", wrapperJustifyContent := "center",
    wrapperClientWidth := 0, wrapperClientHeight := 0,
    ctx := {}, hasDrawCallback := false, drawCallbackCount := 0 }

/-- A stand-in for the platform toDataURL primitive that returns the
mime string it was handed, so theorems can observe which format the
export requested. -/
def echoDataURL : String → ℚ → String := fun mime _ => mime

/-- The default surface after a stroke-color change to red followed by
a press at the origin area and one move: the scenario refuting the
claim that a color change affects the very next segment. -/
def colorThenDrawState : DrawState :=
  onMouseMove (onMouseDown (setLineColor defaultState (.str "#ff0000") trueGuard) 1 1) 2 2

/-- The default surface right after a press: pressed flag true,
context present, nothing drawn yet. -/
def pressedState : DrawState :=
  onMouseDown defaultState 1 1

/-- The default surface taken through press, move, move, release. -/
def fullGestureState : DrawState :=
  onMouseUp (onMouseMove (onMouseMove (onMouseDown defaultState 1 1) 2 2) 3 3) 4 4

/-!  Helper lemmas shared by the claim theorems. -/

/-- strokeCount distributes over list append. -/
theorem strokeCount_append (l1 l2 : List CtxOp) :
    strokeCount (l1 ++ l2) = strokeCount l1 + strokeCount l2 := by
  induction l1 with
  | nil => simp [strokeCount]
  | cons op rest ih => simp [strokeCount, ih]; ring

/-- One drawLine call with context and pressed flag adds exactly one
stroke invocation, keeps the mouse record, and bumps the callback
count exactly when a draw callback is installed. -/
theorem drawLine_spec (s : DrawState) (h1 : s.hasCtx = true) (h2 : s.mouse.mousedown = true) :
    strokeCount (drawLine s).ctx.ops = strokeCount s.ctx.ops + 1 ∧
    (drawLine s).hasCtx = true ∧
    (drawLine s).mouse = s.mouse ∧
    (drawLine s).hasDrawCallback = s.hasDrawCallback ∧
    (drawLine s).drawCallbackCount
      = s.drawCallbackCount + (if s.hasDrawCallback then 1 else 0) := by
  simp only [drawLine, h1, h2]
  simp only [Bool.not_true, Bool.or_self, Bool.false_or, if_neg, ite_false, Bool.not_eq_true]
  split_ifs <;>
    simp_all [pushOp, ctxStroke, ctxFill, strokeCount_append, strokeCount, isStrokeOp]

/-- One mousemove with context and pressed flag adds exactly one
stroke invocation, keeps the pressed flag, and bumps the callback
count exactly when a draw callback is installed. -/
theorem onMouseMove_spec (s : DrawState) (x y : ℚ)
    (h1 : s.hasCtx = true) (h2 : s.mouse.mousedown = true) :
    strokeCount (onMouseMove s x y).ctx.ops = strokeCount s.ctx.ops + 1 ∧
    (onMouseMove s x y).hasCtx = true ∧
    (onMouseMove s x y).mouse.mousedown = true ∧
    (onMouseMove s x y).hasDrawCallback = s.hasDrawCallback ∧
    (onMouseMove s x y).drawCallbackCount
      = s.drawCallbackCount + (if s.hasDrawCallback then 1 else 0) := by
  obtain ⟨d1, d2, d3, d4, d5⟩ := drawLine_spec (setCords s x y trueGuard) h1 h2
  refine ⟨d1, d2, ?_, d4, d5⟩
  show (drawLine (setCords s x y trueGuard)).mouse.mousedown = true
  rw [d3]; exact h2

/-- A mouseup clears the pressed flag and issues no stroke. -/
theorem onMouseUp_spec (s : DrawState) (x y : ℚ) :
    (onMouseUp s x y).mouse.mousedown = false ∧
    strokeCount (onMouseUp s x y).ctx.ops = strokeCount s.ctx.ops ∧
    (onMouseUp s x y).drawCallbackCount = s.drawCallbackCount := by
  simp only [onMouseUp]
  split_ifs <;>
    simp_all [pushOp, strokeCount_append, strokeCount, isStrokeOp, setMouseDown, setCords,
      trueGuard]

/-!  The claims. -/

/-- C1, counterexample: the claim says a non-numeric input to
setLineWidth coerces the stored width to 1, but the source returns
early on a non-number, so from a stored width of 5 the width stays 5;
the claim also says the stored width always lands in the range from 1
to 10, but the numeric input one half is stored as one half, below 1. -/
theorem setLineWidth_nonnumeric_cex :
    (setLineWidth (setLineWidth defaultState (.num 5) trueGuard) (.str "wat") trueGuard).lineWidth
      = 5 ∧
    (5 : ℚ) ≠ 1 ∧
    (setLineWidth defaultState (.num (1 / 2)) trueGuard).lineWidth = 1 / 2 ∧
    ¬(1 ≤ (1 / 2 : ℚ)) := by
  refine ⟨by decide, by norm_num, ?_, by norm_num⟩
  simp [setLineWidth, trueGuard]
  norm_num

/-- C1, amended: for a non-numeric input setLineWidth leaves the whole
state unchanged; for a numeric input the stored width becomes 1 when
the input is at most 0, 10 when above 10, and the input itself
otherwise; hence a stored width that was positive and at most 10 stays
positive and at most 10. -/
theorem setLineWidth_clamp (s : DrawState) (v : JSVal) :
    (v.isNumber = false → setLineWidth s v trueGuard = s) ∧
    (∀ q : ℚ, (setLineWidth s (.num q) trueGuard).lineWidth
        = if q ≤ 0 then 1 else if q > 10 then 10 else q) ∧
    (0 < s.lineWidth → s.lineWidth ≤ 10 →
      0 < (setLineWidth s v trueGuard).lineWidth ∧
        (setLineWidth s v trueGuard).lineWidth ≤ 10) := by
  refine ⟨?_, ?_, ?_⟩
  · intro h; cases v <;> simp_all [setLineWidth, trueGuard, JSVal.isNumber]
  · intro q; simp [setLineWidth, trueGuard]
  · intro h1 h2
    cases v <;> simp [setLineWidth, trueGuard] <;>
      constructor <;> (try split_ifs) <;> linarith

/-- C1, witness for setLineWidth_clamp at the default surface and the
inputs undefined and 3. -/
theorem setLineWidth_clamp_witness :
    setLineWidth defaultState JSVal.undef trueGuard = defaultState ∧
    (setLineWidth defaultState (.num 3) trueGuard).lineWidth
      = (if (3 : ℚ) ≤ 0 then 1 else if (3 : ℚ) > 10 then 10 else 3) ∧
    (0 < (setLineWidth defaultState (.num 3) trueGuard).lineWidth ∧
      (setLineWidth defaultState (.num 3) trueGuard).lineWidth ≤ 10) :=
  ⟨(setLineWidth_clamp defaultState JSVal.undef).1 rfl,
   (setLineWidth_clamp defaultState JSVal.undef).2.1 3,
   (setLineWidth_clamp defaultState (.num 3)).2.2 (by decide) (by decide)⟩

/-- C2: for every setter and every starting state, a guard callback
that answers false on the current value leaves the entire state
unchanged: no partial mutation of any field. -/
theorem setters_guard_veto (s : DrawState) :
    (∀ (v : ℚ) (cb : ℚ → Bool), cb s.width = false → setWidth s v cb = s) ∧
    (∀ (v : ℚ) (cb : ℚ → Bool), cb s.height = false → setHeight s v cb = s) ∧
    (∀ (v : JSVal) (cb : String → Bool), cb s.bg = false → setBg s v cb = s) ∧
    (∀ (v : JSVal) (cb : String → Bool), cb s.lineColor = false → setLineColor s v cb = s) ∧
    (∀ (v : JSVal) (cb : ℚ → Bool), cb s.lineWidth = false → setLineWidth s v cb = s) ∧
    (∀ (v : String) (cb : String → Bool),
      cb s.mouse.cursor = false → setMouseCursor s v cb = s) ∧
    (∀ (v : JSVal) (cb : ℚ → Bool), cb s.border.size = false → setBorderSize s v cb = s) ∧
    (∀ (v : JSVal) (cb : String → Bool),
      cb s.border.color = false → setBorderColor s v cb = s) ∧
    (∀ (v : JSVal) (cb : String → Bool),
      cb s.border.style = false → setBorderStyle s v cb = s) ∧
    (∀ (v : JSVal) (cb : Bool → Bool),
      cb s.mouse.mousedown = false → setMouseDown s v cb = s) := by
  refine ⟨?_, ?_, ?_, ?_, ?_, ?_, ?_, ?_, ?_, ?_⟩ <;> intro v cb h
  · simp [setWidth, h]
  · simp [setHeight, h]
  · simp [setBg, h]
  · simp [setLineColor, h]
  · simp [setLineWidth, h]
  · simp [setMouseCursor, h]
  · simp [setBorderSize, h]
  · simp [setBorderColor, h]
  · simp [setBorderStyle, h]
  · simp [setMouseDown, h]

/-- C2, witness: every setter applied to the default surface with a
constantly-false guard returns the state untouched. -/
theorem setters_guard_veto_witness :
    setWidth defaultState 300 (fun _ => false) = defaultState ∧
    setHeight defaultState 300 (fun _ => false) = defaultState ∧
    setBg defaultState (.str "#abc") (fun _ => false) = defaultState ∧
    setLineColor defaultState (.str "#abc") (fun _ => false) = defaultState ∧
    setLineWidth defaultState (.num 7) (fun _ => false) = defaultState ∧
    setMouseCursor defaultState "pointer" (fun _ => false) = defaultState ∧
    setBorderSize defaultState (.num 7) (fun _ => false) = defaultState ∧
    setBorderColor defaultState (.str "#abc") (fun _ => false) = defaultState ∧
    setBorderStyle defaultState (.str "dashed") (fun _ => false) = defaultState ∧
    setMouseDown defaultState (.boolean true) (fun _ => false) = defaultState := by
  obtain ⟨h1, h2, h3, h4, h5, h6, h7, h8, h9, h10⟩ := setters_guard_veto defaultState
  exact ⟨h1 300 _ rfl, h2 300 _ rfl, h3 _ _ rfl, h4 _ _ rfl, h5 _ _ rfl,
    h6 _ _ rfl, h7 _ _ rfl, h8 _ _ rfl, h9 _ _ rfl, h10 _ _ rfl⟩

/-- C3: the three color setters apply a string input exactly when it
passes the hex test (hash sign plus one to six case-insensitive hex
digits); a failing string or a non-string input leaves the whole state
unchanged.  For the background the written field is the canvas
background style, the only field setBg assigns. -/
theorem colorSetters_hex_gate (s : DrawState) (v : String) (w : JSVal) :
    (regexHEXtest v = true →
      (setLineColor s (.str v) trueGuard).lineColor = v ∧
      (setBorderColor s (.str v) trueGuard).border.color = v ∧
      (s.hasCanvas = true → (setBg s (.str v) trueGuard).canvasStyleBg = v)) ∧
    (regexHEXtest v = false →
      setLineColor s (.str v) trueGuard = s ∧
      setBorderColor s (.str v) trueGuard = s ∧
      setBg s (.str v) trueGuard = s) ∧
    (w.isString = false →
      setLineColor s w trueGuard = s ∧
      setBorderColor s w trueGuard = s ∧
      setBg s w trueGuard = s) := by
  refine ⟨?_, ?_, ?_⟩
  · intro h
    refine ⟨?_, ?_, ?_⟩
    · simp [setLineColor, trueGuard, h]
      split_ifs <;> rfl
    · simp [setBorderColor, trueGuard, h]
      split_ifs <;> simp_all
    · intro hc; simp [setBg, trueGuard, h, hc]
  · intro h; simp [setLineColor, setBorderColor, setBg, trueGuard, h]
  · intro h; cases w <;> simp_all [setLineColor, setBorderColor, setBg, trueGuard, JSVal.isString]

/-- C3, witness at the default surface with the accepted color
hash-ab12, the rejected string zzz, and the non-string input 7. -/
theorem colorSetters_hex_gate_witness :
    ((setLineColor defaultState (.str "#ab12") trueGuard).lineColor = "#ab12" ∧
     (setBorderColor defaultState (.str "#ab12") trueGuard).border.color = "#ab12" ∧
     (setBg defaultState (.str "#ab12") trueGuard).canvasStyleBg = "#ab12") ∧
    (setLineColor defaultState (.str "zzz") trueGuard = defaultState ∧
     setBorderColor defaultState (.str "zzz") trueGuard = defaultState ∧
     setBg defaultState (.str "zzz") trueGuard = defaultState) ∧
    (setLineColor defaultState (.num 7) trueGuard = defaultState ∧
     setBorderColor defaultState (.num 7) trueGuard = defaultState ∧
     setBg defaultState (.num 7) trueGuard = defaultState) := by
  obtain ⟨a1, a2, a3⟩ := (colorSetters_hex_gate defaultState "#ab12" (.num 7)).1 (by decide)
  exact ⟨⟨a1, a2, a3 (by decide)⟩,
    (colorSetters_hex_gate defaultState "zzz" (.num 7)).2.1 (by decide),
    (colorSetters_hex_gate defaultState "#ab12" (.num 7)).2.2 (by decide)⟩

/-- C4, counterexample: after construction from an empty options
object the keyed border accessor yields solid for the style key, not
none as the claim states: the start routine pushes the default border
size 0 through setBorderSize, which flips the none style to solid. -/
theorem default_borderStyle_cex :
    getBorder defaultState "style" = some (Sum.inr "solid") ∧
    getBorder defaultState "style" ≠ some (Sum.inr "none") := by
  decide

/-- C4, amended: construction from an empty options object stores
width 500, height 500, unit px, background cccccc, stroke color
black, stroke width 1, cursor crosshair, border size 0 and border
color none, but the border style read back is solid, because start
feeds the default border size 0 through setBorderSize which flips the
initial none style to solid.  The layout readbacks are fixed at zero;
no asserted field depends on them. -/
theorem defaults_after_empty_options :
    defaultState.width = 500 ∧
    defaultState.height = 500 ∧
    defaultState.sizeValue = "px" ∧
    defaultState.bg = "#cccccc" ∧
    defaultState.lineColor = "#000000" ∧
    defaultState.lineWidth = 1 ∧
    defaultState.mouse.cursor = "crosshair" ∧
    defaultState.border.size = 0 ∧
    defaultState.border.color = "none" ∧
    getBorder defaultState "style" = some (Sum.inr "solid") := by
  decide

/-- C5: with a passing guard, setBorderSize on a number and
setBorderColor on a valid hex color flip a none border style to
solid, and leave any non-none border style exactly as it was. -/
theorem borderStyle_flip (s : DrawState) (q : ℚ) (v : String) (hv : regexHEXtest v = true) :
    (s.border.style = "none" →
      (setBorderSize s (.num q) trueGuard).border.style = "solid" ∧
      (setBorderColor s (.str v) trueGuard).border.style = "solid") ∧
    (s.border.style ≠ "none" →
      (setBorderSize s (.num q) trueGuard).border.style = s.border.style ∧
      (setBorderColor s (.str v) trueGuard).border.style = s.border.style) := by
  constructor <;> intro h <;> constructor
  · simp [setBorderSize, trueGuard]
    split_ifs <;> simp_all
  · simp [setBorderColor, trueGuard, hv]
    split_ifs <;> simp_all
  · simp [setBorderSize, trueGuard]
    split_ifs <;> simp_all
  · simp [setBorderColor, trueGuard, hv]
    split_ifs <;> simp_all

/-- C5, witness: on the unstarted state (style none) both setters
yield style solid; on the default surface (style solid) both leave
the style untouched. -/
theorem borderStyle_flip_witness :
    ((setBorderSize unstartedState (.num 5) trueGuard).border.style = "solid" ∧
     (setBorderColor unstartedState (.str "#fff") trueGuard).border.style = "solid") ∧
    ((setBorderSize defaultState (.num 5) trueGuard).border.style
        = defaultState.border.style ∧
     (setBorderColor defaultState (.str "#fff") trueGuard).border.style
        = defaultState.border.style) :=
  ⟨(borderStyle_flip unstartedState 5 "#fff" (by decide)).1 (by decide),
   (borderStyle_flip defaultState 5 "#fff" (by decide)).2 (by decide)⟩

/-- C6: starting from a surface with a context and the pressed flag
down, the sequence press, move, move, release issues exactly two
stroke invocations, bumps the draw-callback count exactly twice when a
callback is installed and not at all otherwise, and ends with the
pressed flag false, as it began. -/
theorem press_move_move_release (s : DrawState) (x1 y1 x2 y2 x3 y3 x4 y4 : ℚ)
    (hctx : s.hasCtx = true) (hdown : s.mouse.mousedown = false) :
    strokeCount
        (onMouseUp (onMouseMove (onMouseMove (onMouseDown s x1 y1) x2 y2) x3 y3) x4 y4).ctx.ops
      = strokeCount s.ctx.ops + 2 ∧
    (onMouseUp (onMouseMove (onMouseMove (onMouseDown s x1 y1) x2 y2) x3 y3) x4
        y4).mouse.mousedown = false ∧
    (onMouseUp (onMouseMove (onMouseMove (onMouseDown s x1 y1) x2 y2) x3 y3) x4
        y4).drawCallbackCount
      = s.drawCallbackCount + (if s.hasDrawCallback then 2 else 0) ∧
    s.mouse.mousedown = false := by
  have hd1 : (onMouseDown s x1 y1).hasCtx = true := hctx
  have hd2 : (onMouseDown s x1 y1).mouse.mousedown = true := rfl
  have hd3 : (onMouseDown s x1 y1).ctx.ops = s.ctx.ops := rfl
  have hd4 : (onMouseDown s x1 y1).hasDrawCallback = s.hasDrawCallback := rfl
  have hd5 : (onMouseDown s x1 y1).drawCallbackCount = s.drawCallbackCount := rfl
  obtain ⟨m1a, m1b, m1c, m1d, m1e⟩ := onMouseMove_spec (onMouseDown s x1 y1) x2 y2 hd1 hd2
  obtain ⟨m2a, m2b, m2c, m2d, m2e⟩ :=
    onMouseMove_spec (onMouseMove (onMouseDown s x1 y1) x2 y2) x3 y3 m1b m1c
  obtain ⟨ua, ub, uc⟩ :=
    onMouseUp_spec (onMouseMove (onMouseMove (onMouseDown s x1 y1) x2 y2) x3 y3) x4 y4
  refine ⟨?_, ua, ?_, hdown⟩
  · rw [ub, m2a, m1a, hd3]
  · rw [uc, m2e, m1e, hd5, m1d, hd4]
    split_ifs <;> omega

/-- C6, witness: the full gesture on the default surface. -/
theorem press_move_move_release_witness :
    strokeCount fullGestureState.ctx.ops = strokeCount defaultState.ctx.ops + 2 ∧
    fullGestureState.mouse.mousedown = false ∧
    fullGestureState.drawCallbackCount
      = defaultState.drawCallbackCount + (if defaultState.hasDrawCallback then 2 else 0) ∧
    defaultState.mouse.mousedown = false :=
  press_move_move_release defaultState 1 1 2 2 3 3 4 4 (by decide) (by decide)

/-- C7, counterexample: change the stroke color to red on the default
surface, press, then move once.  The single stroke issued consumes the
context stroke style, still black, not the stored red, so the claim
that a color change takes effect on the very next segment fails. -/
theorem stroke_color_deferred_cex :
    strokeStylesOf colorThenDrawState.ctx.ops = ["#000000"] ∧
    colorThenDrawState.lineColor = "#ff0000" ∧
    "#000000" ≠ "#ff0000" := by
  decide

/-- C7, amended: on a qualifying move the segment is stroked with the
stroke style and line width the context carried before the call; only
after the stroke does drawLine copy the stored line color and width
into the context, so a setter change reaches the context on the first
segment after it and the rasteriser on the second. -/
theorem onMouseMove_ops (s : DrawState) (x y : ℚ)
    (h1 : s.hasCtx = true) (h2 : s.mouse.mousedown = true) :
    (onMouseMove s x y).ctx.ops
      = s.ctx.ops ++ [CtxOp.lineTo x y, CtxOp.stroke s.ctx.strokeStyle s.ctx.lineWidth]
        ++ (if s.lineWidth > 1
            then [CtxOp.beginPath, CtxOp.arc x y (s.lineWidth / 2) 0 100,
                  CtxOp.fill s.lineColor]
            else [])
        ++ [CtxOp.beginPath, CtxOp.moveTo x y] ∧
    (onMouseMove s x y).ctx.strokeStyle = s.lineColor ∧
    (onMouseMove s x y).ctx.lineWidth = s.lineWidth := by
  have hc : (setCords s x y trueGuard).hasCtx = true := h1
  have hm : (setCords s x y trueGuard).mouse.mousedown = true := h2
  simp only [onMouseMove, drawLine, hc, hm]
  simp only [Bool.not_true, Bool.or_self]
  split_ifs <;>
    simp_all [pushOp, ctxStroke, ctxFill, setCords, trueGuard]

/-- C7, witness: one move right after a press on the default
surface. -/
theorem onMouseMove_ops_witness :
    (onMouseMove pressedState 2 2).ctx.ops
      = pressedState.ctx.ops
        ++ [CtxOp.lineTo 2 2,
            CtxOp.stroke pressedState.ctx.strokeStyle pressedState.ctx.lineWidth]
        ++ (if pressedState.lineWidth > 1
            then [CtxOp.beginPath, CtxOp.arc 2 2 (pressedState.lineWidth / 2) 0 100,
                  CtxOp.fill pressedState.lineColor]
            else [])
        ++ [CtxOp.beginPath, CtxOp.moveTo 2 2] ∧
    (onMouseMove pressedState 2 2).ctx.strokeStyle = pressedState.lineColor ∧
    (onMouseMove pressedState 2 2).ctx.lineWidth = pressedState.lineWidth :=
  onMouseMove_ops pressedState 2 2 (by decide) (by decide)

/-- C8: the export returns none without a canvas, without a context,
or for a non-string format; for a string format it hands toDataURL the
mime derived from the format with fallback to png outside png and
jpeg, always at the fixed quality one half; in particular the format
bogus exports exactly as png does. -/
theorem getImageB64_spec (s : DrawState) (v : JSVal) (td : String → ℚ → String) :
    (s.hasCanvas = false → getImageB64 s v td = none) ∧
    (s.hasCtx = false → getImageB64 s v td = none) ∧
    (v.isString = false → getImageB64 s v td = none) ∧
    (∀ f : String, s.hasCanvas = true → s.hasCtx = true →
      getImageB64 s (.str f) td
        = (let r := td ("image/" ++ (if ["png", "jpeg"].contains f then f else "png")) (1 / 2)
           if r.length ≠ 0 then some r else none)) ∧
    (s.hasCanvas = true → s.hasCtx = true →
      getImageB64 s (.str "bogus") td = getImageB64 s (.str "png") td) := by
  refine ⟨?_, ?_, ?_, ?_, ?_⟩
  · intro h; simp [getImageB64, h]
  · intro h; simp [getImageB64, h]
  · intro h; cases v <;> simp_all [getImageB64, JSVal.isString]
  · intro f h1 h2; simp [getImageB64, h1, h2, JSVal.isString]
  · intro h1 h2; simp [getImageB64, h1, h2, JSVal.isString, List.contains]

/-- C8, witness: no canvas yields none, a numeric format yields none,
and the format bogus exports as png, observed through echoDataURL. -/
theorem getImageB64_spec_witness :
    getImageB64 unstartedState (.str "png") echoDataURL = none ∧
    getImageB64 defaultState (.num 3) echoDataURL = none ∧
    getImageB64 defaultState (.str "bogus") echoDataURL
      = getImageB64 defaultState (.str "png") echoDataURL :=
  ⟨(getImageB64_spec unstartedState (.str "png") echoDataURL).1 (by decide),
   (getImageB64_spec defaultState (.num 3) echoDataURL).2.2.1 (by decide),
   (getImageB64_spec defaultState (.str "bogus") echoDataURL).2.2.2.2 (by decide) (by decide)⟩

/-- C9: with a passing guard and a canvas, setWidth sets the canvas
drawing-surface width to the value minus twice the border size and the
wrapper outer width to the value with the size unit appended; and in
the scenario border size 5, border color fff, then setWidth 300, the
canvas content width lands at 290. -/
theorem setWidth_border_inset (s : DrawState) (v : ℚ) (h : s.hasCanvas = true) :
    (setWidth s v trueGuard).canvasWidth = v - s.border.size * 2 ∧
    (setWidth s v trueGuard).wrapperStyleWidth = jsNumStr v ++ s.sizeValue ∧
    (setWidth (setBorderColor (setBorderSize defaultState (.num 5) trueGuard)
        (.str "#fff") trueGuard) 300 trueGuard).canvasWidth = 290 := by
  refine ⟨?_, ?_, ?_⟩
  · simp [setWidth, trueGuard, h]
  · simp [setWidth, trueGuard, h]
  · have hmid : setBorderColor (setBorderSize defaultState (.num 5) trueGuard)
        (.str "#fff") trueGuard = borderFiveState := by decide
    rw [hmid]
    simp [setWidth, trueGuard, borderFiveState]
    norm_num

/-- C9, witness at the default surface and width 300. -/
theorem setWidth_border_inset_witness :
    (setWidth defaultState 300 trueGuard).canvasWidth
      = 300 - defaultState.border.size * 2 ∧
    (setWidth defaultState 300 trueGuard).wrapperStyleWidth
      = jsNumStr 300 ++ defaultState.sizeValue ∧
    (setWidth (setBorderColor (setBorderSize defaultState (.num 5) trueGuard)
        (.str "#fff") trueGuard) 300 trueGuard).canvasWidth = 290 :=
  setWidth_border_inset defaultState 300 (by decide)

/-- C10: with a passing guard, setMouseDown on undefined stores the
negation of the pressed flag, so two undefined calls restore it, and
an explicit boolean is stored as given. -/
theorem setMouseDown_toggle (s : DrawState) (b : Bool) (cb : Bool → Bool)
    (h : cb s.mouse.mousedown = true) :
    (setMouseDown s JSVal.undef cb).mouse.mousedown = !s.mouse.mousedown ∧
    (setMouseDown (setMouseDown s JSVal.undef trueGuard) JSVal.undef
        trueGuard).mouse.mousedown = s.mouse.mousedown ∧
    (setMouseDown s (.boolean b) cb).mouse.mousedown = b := by
  simp [setMouseDown, trueGuard, h]

/-- C10, witness at the default surface with the always-true guard. -/
theorem setMouseDown_toggle_witness :
    (setMouseDown defaultState JSVal.undef trueGuard).mouse.mousedown
      = !defaultState.mouse.mousedown ∧
    (setMouseDown (setMouseDown defaultState JSVal.undef trueGuard) JSVal.undef
        trueGuard).mouse.mousedown = defaultState.mouse.mousedown ∧
    (setMouseDown defaultState (.boolean true) trueGuard).mouse.mousedown = true :=
  setMouseDown_toggle defaultState true trueGuard rfl

end NoriDraw
